import Mathlib

/-!
Verification of the bluesky-push-notifier streaming pipeline.

Shallow embedding of the Rust sources under `src/`:
* `post_resolver.rs` — post text truncation and the circuit-breaker guard,
* `relationship_manager.rs` — mute/block checks,
* `filter.rs` — event classification and the notification fan-out,
* `firehose.rs` — the reconnect loop of the firehose consumer,
* `api.rs` — the relationship-update HTTP handler,
* `apns.rs` — stale-token deletion on gateway status 410.

Definitions come first, followed by helper lemmas and the claim theorems.
-/

namespace BskyPush

/-! ## Post text truncation (`post_resolver.rs`, `fetch_posts_batch` and
`fetch_post_from_network_individual`)

Post text is modelled as its UTF-8 byte sequence (`List Nat`), because the
Rust code computes
`if post_text.len() > 140 { format!("{}...", &post_text[..137]) } else { post_text }`
where `String::len` counts bytes and `&post_text[..137]` slices bytes —
panicking when byte 137 is not a character boundary. `none` is the panic. -/

def ellipsisBytes : List Nat := [46, 46, 46]

/-- Rust `str::is_char_boundary`: in bounds, the byte must not be a UTF-8
continuation byte; out of bounds only the length itself is a boundary. -/
def is_char_boundary (t : List Nat) (i : Nat) : Bool :=
  match t[i]? with
  | some b => decide (b < 128 ∨ 192 ≤ b)
  | none => decide (i = t.length)

def truncate_text (t : List Nat) : Option (List Nat) :=
  if t.length > 140 then
    if is_char_boundary t 137 then some (t.take 137 ++ ellipsisBytes) else none
  else some t

/-- Number of characters a UTF-8 byte sequence encodes (one leading,
non-continuation byte per character). -/
def utf8_char_count (t : List Nat) : Nat :=
  (t.filter (fun b => decide (b < 128 ∨ 192 ≤ b))).length

/-! ## Relationship checks (`relationship_manager.rs`, `is_muted` / `is_blocked`)

The Moka cache lookup is the `cache` argument (`none` = no entry); the
database queries are the `Except` arguments (`.error` = query failed). -/

def is_muted (cache : Option (List String)) (useHashed : Bool)
    (hashedCount : Except Unit Nat) (plainLoad : Except Unit (List String))
    (target : String) : Bool :=
  match cache with
  | some mutes => mutes.contains target
  | none =>
    if useHashed then
      match hashedCount with
      | .ok n => decide (n > 0)
      | .error _ => false
    else
      match plainLoad with
      | .ok mutes => mutes.contains target
      | .error _ => false

def is_blocked (cache : Option (List String)) (useHashed : Bool)
    (hashedCount : Except Unit Nat) (plainLoad : Except Unit (List String))
    (target : String) : Bool :=
  match cache with
  | some blocks => blocks.contains target
  | none =>
    if useHashed then
      match hashedCount with
      | .ok n => decide (n > 0)
      | .error _ => false
    else
      match plainLoad with
      | .ok blocks => blocks.contains target
      | .error _ => false

/-! ## JSON values and events (`models.rs`, `serde_json::Value` accesses)

Only the accessors the filter uses are modelled: `get` on objects,
`as_str`, `as_array`, `as_object`, and `str::contains` substring tests. -/

inductive Json where
  | null
  | bool (b : Bool)
  | num (n : Int)
  | str (s : String)
  | arr (elems : List Json)
  | obj (fields : List (String × Json))

def jget : Json → String → Option Json
  | .obj fields, key => (fields.find? (fun p => p.1 == key)).map (·.2)
  | _, _ => none

def asStr : Json → Option String
  | .str s => some s
  | _ => none

def asArr : Json → Option (List Json)
  | .arr xs => some xs
  | _ => none

def isObj : Json → Bool
  | .obj _ => true
  | _ => false

/-- Character-list prefix test (building block for `str::contains`). -/
def leadsWith : List Char → List Char → Bool
  | [], _ => true
  | _ :: _, [] => false
  | a :: as, b :: bs => a == b && leadsWith as bs

/-- Substring occurrence test for `needle` inside `hay`. -/
def hasSub (needle : List Char) : List Char → Bool
  | [] => needle.isEmpty
  | c :: t => leadsWith needle (c :: t) || hasSub needle t

/-- Rust `haystack.contains(needle)` on strings. -/
def strContains (hay needle : String) : Bool :=
  hasSub needle.data hay.data

inductive NotificationType where
  | mention
  | reply
  | like
  | follow
  | repost
  | quote
deriving DecidableEq

structure BlueskyEvent where
  op : String
  path : String
  cid : String
  author : String
  record : Json
  timestamp : Int

/-! ## Classification (`filter.rs`, `classify_event` and its helpers) -/

/-- Source `has_quote_embed`: an `embed.record` field, or an embed `$type`
of `app.bsky.embed.record` / `app.bsky.embed.recordWithMedia`. -/
def has_quote_embed (record : Json) : Bool :=
  match jget record "embed" with
  | none => false
  | some embed =>
    if (jget embed "record").isSome then true
    else
      match (jget embed "$type").bind asStr with
      | some t => t == "app.bsky.embed.record" || t == "app.bsky.embed.recordWithMedia"
      | none => false

/-- Push every user whose id occurs in `uri` and is not yet in the
accumulator (the two `for user in registered_users` loops of
`extract_quoted_dids`). -/
def pushQuoted (uri : String) (users acc : List String) : List String :=
  users.foldl (fun r u => if strContains uri u = true ∧ u ∉ r then r ++ [u] else r) acc

/-- First half of source `extract_quoted_dids`: the standard structure
`record_obj.record.uri`. -/
def quoted_std (recordObj : Json) (users acc : List String) : List String :=
  match (jget recordObj "record").bind (fun r => (jget r "uri").bind asStr) with
  | some uri => pushQuoted uri users acc
  | none => acc

/-- Source `extract_quoted_dids`: checks `record.uri` (standard structure)
then `uri` (alternative structure) on the embedded record object. -/
def extract_quoted_dids (recordObj : Json) (users acc : List String) : List String :=
  match (jget recordObj "uri").bind asStr with
  | some uri => pushQuoted uri users (quoted_std recordObj users acc)
  | none => quoted_std recordObj users acc

/-- First pass of source `find_quoted_users`: the direct `embed.record`. -/
def find_quoted_base (embed : Json) (users : List String) : List String :=
  match jget embed "record" with
  | some ro => extract_quoted_dids ro users []
  | none => []

/-- Second pass of source `find_quoted_users`: repeat the extraction when
`$type == app.bsky.embed.recordWithMedia`. -/
def find_quoted_with_media (embed : Json) (users : List String) : List String :=
  if (jget embed "$type").bind asStr = some "app.bsky.embed.recordWithMedia" then
    match jget embed "record" with
    | some ro => extract_quoted_dids ro users (find_quoted_base embed users)
    | none => find_quoted_base embed users
  else find_quoted_base embed users

/-- Source `find_quoted_users`: direct `embed.record`, plus a second pass
for `$type == app.bsky.embed.recordWithMedia`. -/
def find_quoted_users (event : BlueskyEvent) (users : List String) : List String :=
  match jget event.record "embed" with
  | none => []
  | some embed => find_quoted_with_media embed users

/-- One feature of one facet in `extract_mention_dids`: a
`richtext.facet#mention` feature with a registered, not-yet-collected did. -/
def mention_step (users acc : List String) (feature : Json) : List String :=
  if (jget feature "$type").bind asStr = some "app.bsky.richtext.facet#mention" then
    match (jget feature "did").bind asStr with
    | some did => if did ∈ users ∧ did ∉ acc then acc ++ [did] else acc
    | none => acc
  else acc

/-- Source `extract_mention_dids`: fold over `facets[*].features[*]`. -/
def extract_mention_dids (event : BlueskyEvent) (users : List String) : List String :=
  match (jget event.record "facets").bind asArr with
  | none => []
  | some facets =>
    facets.foldl (fun acc facet =>
      match (jget facet "features").bind asArr with
      | none => acc
      | some features => features.foldl (mention_step users) acc) []

/-- Source `extract_target_dids`: follow subject is a raw did string;
like/repost subject is an object carrying a `uri`; a post's reply target
comes from `reply.parent.uri`. (For a post whose reply targets are empty
the source returns the empty vector either way.) -/
def extract_target_dids (event : BlueskyEvent) (users : List String) : List String :=
  if strContains event.path "app.bsky.graph.follow" then
    match (jget event.record "subject").bind asStr with
    | some subject => users.filter (fun did => subject == did)
    | none => []
  else if strContains event.path "app.bsky.feed.like" || strContains event.path "app.bsky.feed.repost" then
    match jget event.record "subject" with
    | some subj =>
      if isObj subj then
        match (jget subj "uri").bind asStr with
        | some uri => users.filter (fun did => strContains uri did)
        | none => []
      else []
    | none => []
  else if strContains event.path "app.bsky.feed.post" then
    match jget event.record "reply" with
    | some reply =>
      if isObj reply then
        match jget reply "parent" with
        | some parent =>
          if isObj parent then
            match (jget parent "uri").bind asStr with
            | some uri => users.filter (fun did => strContains uri did)
            | none => []
          else []
        | none => []
      else []
    | none => []
  else []

/-- Mention candidate of `classify_event`: `Mention` when the mention set
is nonempty, otherwise `None`. -/
def mention_or_none (event : BlueskyEvent) (users : List String) :
    Option (NotificationType × List String) :=
  if (extract_mention_dids event users).isEmpty then none
  else some (.mention, extract_mention_dids event users)

/-- Reply candidate with mention fallback (the block the source duplicates
in both the quote and the non-quote branch of `classify_event`). -/
def reply_or_fallback (event : BlueskyEvent) (users : List String) :
    Option (NotificationType × List String) :=
  if (jget event.record "reply").isSome then
    if (extract_target_dids event users).isEmpty then mention_or_none event users
    else some (.reply, extract_target_dids event users)
  else mention_or_none event users

/-- The `app.bsky.feed.post` arm of `classify_event`. -/
def classify_post (event : BlueskyEvent) (users : List String) :
    Option (NotificationType × List String) :=
  if has_quote_embed event.record then
    if (find_quoted_users event users).isEmpty then reply_or_fallback event users
    else some (.quote, find_quoted_users event users)
  else reply_or_fallback event users

/-- Arm selection of source `classify_event` (the `match event.path` with
its `contains` guards). -/
def classify_arm (event : BlueskyEvent) (users : List String) :
    Option (NotificationType × List String) :=
  if strContains event.path "app.bsky.feed.post" then classify_post event users
  else if strContains event.path "app.bsky.feed.like" then
    some (.like, extract_target_dids event users)
  else if strContains event.path "app.bsky.graph.follow" then
    some (.follow, extract_target_dids event users)
  else if strContains event.path "app.bsky.feed.repost" then
    some (.repost, extract_target_dids event users)
  else none

/-- Source `classify_event`: the arm selection, then the final
`relevant_dids.is_empty()` check. -/
def classify_event (event : BlueskyEvent) (users : List String) :
    Option (NotificationType × List String) :=
  match classify_arm event users with
  | none => none
  | some (t, dids) => if dids.isEmpty then none else some (t, dids)

/-! ## Notification fan-out (`filter.rs`, `run_event_filter` lines 79-199)

After classification the filter walks `relevant_dids`, skips recipients
that muted or blocked the author, and for each of the recipient's devices
checks the stored preference flag for the classified kind before building
a payload. The relationship answers, the device table and the preference
table are oracles. -/

structure UserDevice where
  id : Nat
  device_token : String
deriving DecidableEq

structure NotificationPreference where
  mentions : Bool
  replies : Bool
  likes : Bool
  follows : Bool
  reposts : Bool
  quotes : Bool
deriving DecidableEq

/-- The `should_notify` match of `run_event_filter`. -/
def should_notify (prefs : NotificationPreference) : NotificationType → Bool
  | .mention => prefs.mentions
  | .reply => prefs.replies
  | .like => prefs.likes
  | .follow => prefs.follows
  | .repost => prefs.reposts
  | .quote => prefs.quotes

structure NotificationPayload where
  user_did : String
  device_id : Nat
  device_token : String
  ntype : NotificationType
deriving DecidableEq

/-- Per-device step of the fan-out: fetch preferences for the device id
(`none` = the preference query failed, which drops the notification) and
apply the `should_notify` flag. -/
def device_payload (prefs_of : Nat → Option NotificationPreference)
    (ntype : NotificationType) (did : String) (dev : UserDevice) :
    Option NotificationPayload :=
  match prefs_of dev.id with
  | some prefs =>
    if should_notify prefs ntype then
      some { user_did := did, device_id := dev.id, device_token := dev.device_token, ntype := ntype }
    else none
  | none => none

/-- The candidate payloads the filter loop can enqueue for one event:
recipients surviving the mute/block filter, fanned out over their devices.
(Content creation, backpressure and channel sends can only drop further
payloads, so this is the maximal enqueued set.) -/
def payloads_for_event (rm_muted rm_blocked : String → String → Bool)
    (devices_map : String → List UserDevice)
    (prefs_of : Nat → Option NotificationPreference)
    (ntype : NotificationType) (author : String) (relevant_dids : List String) :
    List NotificationPayload :=
  (relevant_dids.filter (fun did => !(rm_muted did author) && !(rm_blocked did author))).flatMap
    (fun did => (devices_map did).filterMap (device_payload prefs_of ntype did))

/-! ## Firehose reconnect loop (`firehose.rs`, `run_firehose_consumer`)

The loop is abstracted as a transition system: connect attempts happen in
phase `connecting`; frames are handled in phase `streaming`. A connect
failure increments `attempts` (fatal at 10), sleeps the current backoff
and doubles it (capped at 60); an error frame or frame-parse error breaks
the inner loop straight back to `connecting`; a parsed commit resets
`attempts` and the backoff. -/

inductive FirePhase where
  | connecting
  | streaming
deriving DecidableEq

structure FireState where
  attempts : Nat
  delay : Nat
  phase : FirePhase
deriving DecidableEq

inductive FireEvent where
  | connectOk
  | connectFail
  | commitProcessed
  | streamError
deriving DecidableEq

inductive FireAction where
  | idle
  | sleepFor (secs : Nat)
  | fatalStop
deriving DecidableEq

def fire_initial : FireState := ⟨0, 1, .connecting⟩

def fire_step : FireState → FireEvent → FireState × FireAction
  | ⟨a, d, .connecting⟩, .connectFail =>
    if a + 1 ≥ 10 then (⟨a + 1, d, .connecting⟩, .fatalStop)
    else (⟨a + 1, min (d * 2) 60, .connecting⟩, .sleepFor d)
  | ⟨a, d, .connecting⟩, .connectOk => (⟨a, d, .streaming⟩, .idle)
  | ⟨_, _, .streaming⟩, .commitProcessed => (⟨0, 1, .streaming⟩, .idle)
  | ⟨a, d, .streaming⟩, .streamError => (⟨a, d, .connecting⟩, .idle)
  | s, _ => (s, .idle)

def fire_run : FireState → List FireEvent → FireState × List FireAction
  | s, [] => (s, [])
  | s, e :: es =>
    let (s', act) := fire_step s e
    let (s'', acts) := fire_run s' es
    (s'', act :: acts)

/-! ## Circuit breaker (`post_resolver.rs`)

Modelled from the spec: the breaker itself lives in the external
`circuit_breaker` crate (not under `src/`); per the spec it is a
finite-state object {Closed, Open(until), HalfOpen} that trips open at
`failure_threshold` consecutive failures, stays open for `open_duration`
seconds, and re-closes after `success_threshold` successes in the
half-open window. `src/post_resolver.rs` configures it with
failure_threshold 5, open_duration 30 s and (in its local config struct)
success_threshold 2, and consults it in
`fetch_post_from_network_individual`. Time is in whole seconds. -/

inductive CBState where
  | closed (failures : Nat)
  | tripped (since : Nat)
  | halfOpen (successes : Nat)
deriving DecidableEq

structure CircuitBreaker where
  failure_threshold : Nat
  success_threshold : Nat
  open_duration : Nat
  st : CBState
deriving DecidableEq

/-- Observed state at time `now`: a tripped breaker past its open window
reports half-open. -/
def cb_observe (cb : CircuitBreaker) (now : Nat) : CBState :=
  match cb.st with
  | .tripped since => if since + cb.open_duration ≤ now then .halfOpen 0 else .tripped since
  | s => s

/-- Whether `state()` reports `Open` at time `now`. -/
def cb_is_open (cb : CircuitBreaker) (now : Nat) : Bool :=
  match cb.st with
  | .tripped since => decide (now < since + cb.open_duration)
  | _ => false

def handle_failure (cb : CircuitBreaker) (now : Nat) : CircuitBreaker :=
  { cb with st :=
      match cb_observe cb now with
      | .closed f => if f + 1 ≥ cb.failure_threshold then .tripped now else .closed (f + 1)
      | .halfOpen _ => .tripped now
      | .tripped since => .tripped since }

def handle_success (cb : CircuitBreaker) (now : Nat) : CircuitBreaker :=
  { cb with st :=
      match cb_observe cb now with
      | .closed _ => .closed 0
      | .halfOpen s => if s + 1 ≥ cb.success_threshold then .closed 0 else .halfOpen (s + 1)
      | .tripped since => .tripped since }

/-- The breaker as configured in `PostResolver::new`. -/
def post_resolver_breaker : CircuitBreaker :=
  { failure_threshold := 5, success_threshold := 2, open_duration := 30, st := .closed 0 }

/-- Outcome of one network lookup, distinguishing every response path of
the source: a transport error; a non-2xx status; a 2xx response whose body
fails to parse; a 2xx response that parses to an empty `posts` list; and a
2xx response carrying a first post's text (as UTF-8 bytes). -/
inductive NetOutcome where
  | sendError
  | httpError
  | parseError
  | emptyPosts
  | posts (text : List Nat)
deriving DecidableEq

/-- What one lookup returns: `Ok` text, an `Err`, or a panic from the
byte-slicing in truncation. -/
inductive FetchOutcome where
  | ok (text : List Nat)
  | err
  | panicked
deriving DecidableEq

structure FetchResult where
  result : FetchOutcome
  cb : CircuitBreaker
  network_used : Bool
deriving DecidableEq

/-- UTF-8 bytes of the circuit-open fallback string (all ASCII). -/
def fallbackBytes : List Nat := ("Content temporarily unavailable".data).map Char.toNat

/-- Source `fetch_post_from_network_individual`: short-circuit with the
fallback string while the breaker is open (no network I/O); otherwise hit
the network (`net` is the outcome oracle) and update the breaker exactly as
the source does: `handle_failure` on a transport error or non-2xx status;
on a 2xx status `handle_success` is recorded *before* the body is parsed,
so a parse error records a success then a failure, and an empty `posts`
list records only the success yet returns `Err`; a fetched text is
truncated (possibly panicking). -/
def fetch_post_from_network_individual (cb : CircuitBreaker) (now : Nat)
    (net : NetOutcome) : FetchResult :=
  if cb_is_open cb now then
    { result := .ok fallbackBytes, cb := cb, network_used := false }
  else
    match net with
    | .sendError => { result := .err, cb := handle_failure cb now, network_used := true }
    | .httpError => { result := .err, cb := handle_failure cb now, network_used := true }
    | .parseError =>
      { result := .err, cb := handle_failure (handle_success cb now) now, network_used := true }
    | .emptyPosts => { result := .err, cb := handle_success cb now, network_used := true }
    | .posts text =>
      { result := match truncate_text text with
          | some r => .ok r
          | none => .panicked,
        cb := handle_success cb now, network_used := true }

/-- Breaker state after a sequence of lookups, all at time `now`. -/
def run_lookups (cb : CircuitBreaker) (now : Nat) : List NetOutcome → CircuitBreaker
  | [] => cb
  | n :: ns => run_lookups (fetch_post_from_network_individual cb now n).cb now ns

/-! ## Device rows and the 410 handler (`apns.rs`, `run_notification_sender`)

On an APNs response with status 410 the sender runs
`DELETE FROM user_devices WHERE device_token = $1`. -/

structure DeviceRow where
  id : Nat
  did : String
  device_token : String
deriving DecidableEq

def delete_device_by_token (rows : List DeviceRow) (tok : String) : List DeviceRow :=
  rows.filter (fun r => !(r.device_token == tok))

/-! ## Relationship update endpoint (`api.rs`, `update_relationships`, and
`relationship_manager.rs`, `update_relationships_batch`)

The handler rejects oversize payloads with 400 before calling
`update_relationships_batch`, which authenticates the `(did, device_token)`
pair against the device table and then replaces the user's stored rows
inside one transaction. -/

structure RelStore where
  muteRows : List (String × String)
  blockRows : List (String × String)
deriving DecidableEq

structure RelRequest where
  did : String
  device_token : String
  mutes : List String
  blocks : List String
deriving DecidableEq

/-- Source `authenticate_device`: a live registration row must match both
the did and the device token. -/
def authenticate_device (devices : List DeviceRow) (did tok : String) : Bool :=
  devices.any (fun d => d.did == did && d.device_token == tok)

/-- Source `update_relationships_batch`: authenticate, then (in one
transaction) delete the user's rows and reinsert the submitted ones.
`none` is the `Invalid device token` error. -/
def update_relationships_batch (devices : List DeviceRow) (st : RelStore)
    (did tok : String) (mutes blocks : List String) : Option RelStore :=
  if authenticate_device devices did tok then
    some { muteRows := st.muteRows.filter (fun p => !(p.1 == did)) ++ mutes.map (fun m => (did, m)),
           blockRows := st.blockRows.filter (fun p => !(p.1 == did)) ++ blocks.map (fun b => (did, b)) }
  else none

/-- Source `update_relationships` handler: the oversize check runs before
anything else; 401 maps the `Invalid device token` error. The returned
`Nat` is the HTTP status. -/
def update_relationships (devices : List DeviceRow) (st : RelStore)
    (req : RelRequest) : Nat × RelStore :=
  if req.mutes.length > 1000 ∨ req.blocks.length > 1000 then (400, st)
  else
    match update_relationships_batch devices st req.did req.device_token req.mutes req.blocks with
    | some st' => (200, st')
    | none => (401, st)

/-! ## Concrete fixtures used by witnesses -/

def c2ev : BlueskyEvent :=
  { op := "create", path := "app.bsky.feed.post/3abc", cid := "c",
    author := "did:plc:bob",
    record := .obj [("text", .str "check this"),
      ("embed", .obj [("record", .obj [("uri", .str "at://did:plc:alice/app.bsky.feed.post/xyz")])])],
    timestamp := 0 }

def wUsers : List String := ["did:plc:alice"]

def wDevicesOne : String → List UserDevice :=
  fun did => if did = "did:plc:alice" then [⟨1, "tokA"⟩] else []

def wDevicesTwo : String → List UserDevice :=
  fun did => if did = "did:plc:alice" then [⟨1, "tokA"⟩, ⟨2, "tokB"⟩] else []

def wPrefsOn : Nat → Option NotificationPreference :=
  fun _ => some ⟨true, true, true, true, true, true⟩

def wPrefsOff : Nat → Option NotificationPreference :=
  fun _ => some ⟨false, false, false, false, false, false⟩

def wNoRel : String → String → Bool := fun _ _ => false

def wMutedAliceBob : String → String → Bool :=
  fun r a => decide (r = "did:plc:alice" ∧ a = "did:plc:bob")

def wRows : List DeviceRow :=
  [⟨1, "did:plc:alice", "tokA"⟩, ⟨2, "did:plc:bob", "tokB"⟩]

def wApiDevices : List DeviceRow := [⟨1, "did:plc:alice", "tokA"⟩]

def wStore : RelStore :=
  { muteRows := [("did:plc:alice", "did:plc:old"), ("did:plc:z", "did:plc:q")],
    blockRows := [] }

def wReqOversize : RelRequest :=
  { did := "did:plc:alice", device_token := "tokA",
    mutes := List.replicate 1001 "did:plc:x", blocks := [] }

def wReqFull : RelRequest :=
  { did := "did:plc:alice", device_token := "tokA",
    mutes := List.replicate 1000 "did:plc:x", blocks := List.replicate 1000 "did:plc:y" }

/-- UTF-8 bytes of 37 copies of `é` (2 bytes each) followed by 70 `a`s:
107 characters but 144 bytes. -/
def sampleMultiByte : List Nat :=
  (List.replicate 37 ([195, 169] : List Nat)).flatten ++ List.replicate 70 97

/-- UTF-8 bytes of 75 copies of `é`: 150 bytes with byte 137 falling in the
middle of a character. -/
def panicSample : List Nat := (List.replicate 75 ([195, 169] : List Nat)).flatten

/-! ## Classification helper lemmas -/

/-- When the quote candidate is absent or empty, the post arm falls
through to the reply/mention block. -/
theorem classify_post_fallthrough (e : BlueskyEvent) (users : List String)
    (h : has_quote_embed e.record = false ∨ find_quoted_users e users = []) :
    classify_post e users = reply_or_fallback e users := by
  unfold classify_post
  rcases h with h | h
  · simp [h]
  · by_cases hq : has_quote_embed e.record <;> simp [hq, h]

/-- When the reply candidate is absent or empty, the reply/mention block
falls through to the mention candidate. -/
theorem reply_or_fallback_to_mention (e : BlueskyEvent) (users : List String)
    (h : (jget e.record "reply").isSome = false ∨ extract_target_dids e users = []) :
    reply_or_fallback e users = mention_or_none e users := by
  unfold reply_or_fallback
  rcases h with h | h
  · simp [h]
  · by_cases hr : (jget e.record "reply").isSome <;> simp [hr, h]

/-! ## Theorem for C2 (classification precedence and fallthrough) -/

/-- C2: for `feed.post` events classification picks exactly one candidate
with precedence Quote ≻ Reply ≻ Mention, falling through when a candidate
has no registered recipients and yielding nothing when all are empty; for
`feed.like`, `graph.follow` and `feed.repost` an empty extraction yields
no notification (no fallback); other paths yield nothing. -/
theorem c2_classification (e : BlueskyEvent) (users : List String) :
    (strContains e.path "app.bsky.feed.post" = true →
      (has_quote_embed e.record = true → find_quoted_users e users ≠ [] →
        classify_event e users = some (.quote, find_quoted_users e users)) ∧
      ((has_quote_embed e.record = false ∨ find_quoted_users e users = []) →
        (jget e.record "reply").isSome = true → extract_target_dids e users ≠ [] →
        classify_event e users = some (.reply, extract_target_dids e users)) ∧
      ((has_quote_embed e.record = false ∨ find_quoted_users e users = []) →
        ((jget e.record "reply").isSome = false ∨ extract_target_dids e users = []) →
        extract_mention_dids e users ≠ [] →
        classify_event e users = some (.mention, extract_mention_dids e users)) ∧
      ((has_quote_embed e.record = false ∨ find_quoted_users e users = []) →
        ((jget e.record "reply").isSome = false ∨ extract_target_dids e users = []) →
        extract_mention_dids e users = [] →
        classify_event e users = none)) ∧
    (strContains e.path "app.bsky.feed.post" = false →
      (strContains e.path "app.bsky.feed.like" = true →
        (extract_target_dids e users = [] → classify_event e users = none) ∧
        (extract_target_dids e users ≠ [] →
          classify_event e users = some (.like, extract_target_dids e users))) ∧
      (strContains e.path "app.bsky.feed.like" = false →
        strContains e.path "app.bsky.graph.follow" = true →
        (extract_target_dids e users = [] → classify_event e users = none) ∧
        (extract_target_dids e users ≠ [] →
          classify_event e users = some (.follow, extract_target_dids e users))) ∧
      (strContains e.path "app.bsky.feed.like" = false →
        strContains e.path "app.bsky.graph.follow" = false →
        strContains e.path "app.bsky.feed.repost" = true →
        (extract_target_dids e users = [] → classify_event e users = none) ∧
        (extract_target_dids e users ≠ [] →
          classify_event e users = some (.repost, extract_target_dids e users))) ∧
      (strContains e.path "app.bsky.feed.like" = false →
        strContains e.path "app.bsky.graph.follow" = false →
        strContains e.path "app.bsky.feed.repost" = false →
        classify_event e users = none)) := by
  constructor
  · intro hpath
    refine ⟨?_, ?_, ?_, ?_⟩
    · intro hq hne
      simp [classify_event, classify_arm, classify_post, hpath, hq, List.isEmpty_eq_false.mpr hne]
    · intro hqc hreply hrd
      have h1 : classify_post e users = some (.reply, extract_target_dids e users) := by
        rw [classify_post_fallthrough e users hqc]
        simp [reply_or_fallback, hreply, List.isEmpty_eq_false.mpr hrd]
      simp [classify_event, classify_arm, hpath, h1, List.isEmpty_eq_false.mpr hrd]
    · intro hqc hrc hm
      have h1 : classify_post e users = some (.mention, extract_mention_dids e users) := by
        rw [classify_post_fallthrough e users hqc, reply_or_fallback_to_mention e users hrc]
        simp [mention_or_none, List.isEmpty_eq_false.mpr hm]
      simp [classify_event, classify_arm, hpath, h1, List.isEmpty_eq_false.mpr hm]
    · intro hqc hrc hm
      have h1 : classify_post e users = none := by
        rw [classify_post_fallthrough e users hqc, reply_or_fallback_to_mention e users hrc]
        simp [mention_or_none, hm]
      simp [classify_event, classify_arm, hpath, h1]
  · intro hpath
    refine ⟨?_, ?_, ?_, ?_⟩
    · intro hlike
      constructor
      · intro hempty
        simp [classify_event, classify_arm, hpath, hlike, hempty]
      · intro hne
        simp [classify_event, classify_arm, hpath, hlike, List.isEmpty_eq_false.mpr hne]
    · intro hlike hfollow
      constructor
      · intro hempty
        simp [classify_event, classify_arm, hpath, hlike, hfollow, hempty]
      · intro hne
        simp [classify_event, classify_arm, hpath, hlike, hfollow, List.isEmpty_eq_false.mpr hne]
    · intro hlike hfollow hrepost
      constructor
      · intro hempty
        simp [classify_event, classify_arm, hpath, hlike, hfollow, hrepost, hempty]
      · intro hne
        simp [classify_event, classify_arm, hpath, hlike, hfollow, hrepost, List.isEmpty_eq_false.mpr hne]
    · intro hlike hfollow hrepost
      simp [classify_event, classify_arm, hpath, hlike, hfollow, hrepost]

/-- C2 witness: a concrete post quoting a registered user's record
classifies as a Quote to exactly that user. -/
theorem c2_classification_witness :
    classify_event c2ev wUsers = some (.quote, ["did:plc:alice"]) := by
  have h := ((c2_classification c2ev wUsers).1 (by decide)).1 (by decide) (by decide)
  have hq : find_quoted_users c2ev wUsers = ["did:plc:alice"] := by decide
  rw [hq] at h
  exact h

/-! ## Nodup lemmas for the extractors -/

theorem nodup_append_single {α : Type} {l : List α} {a : α}
    (h : l.Nodup) (ha : a ∉ l) : (l ++ [a]).Nodup := by
  simp [List.nodup_append, h, ha]

/-- A fold whose step either keeps the accumulator or appends one fresh
element preserves `Nodup`. -/
theorem foldl_nodup_of_step {α β : Type} (f : List α → β → List α)
    (hf : ∀ r u, f r u = r ∨ ∃ a, a ∉ r ∧ f r u = r ++ [a]) :
    ∀ (l : List β) (acc : List α), acc.Nodup → (l.foldl f acc).Nodup := by
  intro l
  induction l with
  | nil => intro acc h; simpa using h
  | cons u t ih =>
    intro acc h
    rw [List.foldl_cons]
    apply ih
    rcases hf acc u with he | ⟨a, ha, he⟩
    · rwa [he]
    · rw [he]; exact nodup_append_single h ha

/-- A fold whose step preserves `Nodup` preserves it overall. -/
theorem foldl_nodup_of_preserve {α β : Type} (f : List α → β → List α)
    (hf : ∀ r u, r.Nodup → (f r u).Nodup) :
    ∀ (l : List β) (acc : List α), acc.Nodup → (l.foldl f acc).Nodup := by
  intro l
  induction l with
  | nil => intro acc h; simpa using h
  | cons u t ih =>
    intro acc h
    rw [List.foldl_cons]
    exact ih _ (hf acc u h)

theorem pushQuoted_nodup (uri : String) (users : List String) :
    ∀ acc, acc.Nodup → (pushQuoted uri users acc).Nodup := by
  intro acc h
  unfold pushQuoted
  apply foldl_nodup_of_step _ ?_ users acc h
  intro r u
  by_cases hc : strContains uri u = true ∧ u ∉ r
  · exact Or.inr ⟨u, hc.2, if_pos hc⟩
  · exact Or.inl (if_neg hc)

theorem quoted_std_nodup (ro : Json) (users : List String) :
    ∀ acc, acc.Nodup → (quoted_std ro users acc).Nodup := by
  intro acc h
  unfold quoted_std
  cases (jget ro "record").bind (fun r => (jget r "uri").bind asStr) with
  | none => exact h
  | some uri => exact pushQuoted_nodup uri users acc h

theorem extract_quoted_dids_nodup (ro : Json) (users : List String) :
    ∀ acc, acc.Nodup → (extract_quoted_dids ro users acc).Nodup := by
  intro acc h
  unfold extract_quoted_dids
  cases (jget ro "uri").bind asStr with
  | none => exact quoted_std_nodup ro users acc h
  | some uri => exact pushQuoted_nodup uri users _ (quoted_std_nodup ro users acc h)

theorem find_quoted_base_nodup (embed : Json) (users : List String) :
    (find_quoted_base embed users).Nodup := by
  unfold find_quoted_base
  cases jget embed "record" with
  | none => exact List.nodup_nil
  | some ro => exact extract_quoted_dids_nodup ro users [] List.nodup_nil

theorem find_quoted_with_media_nodup (embed : Json) (users : List String) :
    (find_quoted_with_media embed users).Nodup := by
  unfold find_quoted_with_media
  by_cases ht : (jget embed "$type").bind asStr = some "app.bsky.embed.recordWithMedia"
  · rw [if_pos ht]
    cases jget embed "record" with
    | none => exact find_quoted_base_nodup embed users
    | some ro => exact extract_quoted_dids_nodup ro users _ (find_quoted_base_nodup embed users)
  · rw [if_neg ht]
    exact find_quoted_base_nodup embed users

theorem find_quoted_users_nodup (e : BlueskyEvent) (users : List String) :
    (find_quoted_users e users).Nodup := by
  unfold find_quoted_users
  cases jget e.record "embed" with
  | none => exact List.nodup_nil
  | some embed => exact find_quoted_with_media_nodup embed users

theorem mention_step_cases (users acc : List String) (f : Json) :
    mention_step users acc f = acc ∨
    ∃ a, a ∉ acc ∧ mention_step users acc f = acc ++ [a] := by
  unfold mention_step
  by_cases h1 : (jget f "$type").bind asStr = some "app.bsky.richtext.facet#mention"
  · rw [if_pos h1]
    cases hd : (jget f "did").bind asStr with
    | none => exact Or.inl rfl
    | some did =>
      by_cases h2 : did ∈ users ∧ did ∉ acc
      · exact Or.inr ⟨did, h2.2, if_pos h2⟩
      · exact Or.inl (if_neg h2)
  · exact Or.inl (if_neg h1)

theorem extract_mention_dids_nodup (e : BlueskyEvent) (users : List String) :
    (extract_mention_dids e users).Nodup := by
  unfold extract_mention_dids
  cases (jget e.record "facets").bind asArr with
  | none => exact List.nodup_nil
  | some facets =>
    apply foldl_nodup_of_preserve _ ?_ facets [] List.nodup_nil
    intro r facet hr
    cases (jget facet "features").bind asArr with
    | none => exact hr
    | some features =>
      exact foldl_nodup_of_step (mention_step users)
        (fun a b => mention_step_cases users a b) features r hr

theorem extract_target_dids_nodup (e : BlueskyEvent) (users : List String)
    (h : users.Nodup) : (extract_target_dids e users).Nodup := by
  unfold extract_target_dids
  split_ifs <;> (repeat' split) <;> first
    | exact List.nodup_nil
    | exact h.filter _

theorem mention_or_none_nodup (e : BlueskyEvent) (users : List String)
    (td : NotificationType × List String)
    (h : mention_or_none e users = some td) : td.2.Nodup := by
  unfold mention_or_none at h
  split at h
  · exact absurd h (by simp)
  · rw [Option.some_inj] at h
    rw [← h]
    exact extract_mention_dids_nodup e users

theorem reply_or_fallback_nodup (e : BlueskyEvent) (users : List String)
    (husers : users.Nodup) (td : NotificationType × List String)
    (h : reply_or_fallback e users = some td) : td.2.Nodup := by
  unfold reply_or_fallback at h
  split at h
  · split at h
    · exact mention_or_none_nodup e users td h
    · rw [Option.some_inj] at h
      rw [← h]
      exact extract_target_dids_nodup e users husers
  · exact mention_or_none_nodup e users td h

theorem classify_post_nodup (e : BlueskyEvent) (users : List String)
    (husers : users.Nodup) (td : NotificationType × List String)
    (h : classify_post e users = some td) : td.2.Nodup := by
  unfold classify_post at h
  split at h
  · split at h
    · exact reply_or_fallback_nodup e users husers td h
    · rw [Option.some_inj] at h
      rw [← h]
      exact find_quoted_users_nodup e users
  · exact reply_or_fallback_nodup e users husers td h

theorem classify_arm_nodup (e : BlueskyEvent) (users : List String)
    (husers : users.Nodup) (td : NotificationType × List String)
    (h : classify_arm e users = some td) : td.2.Nodup := by
  unfold classify_arm at h
  split_ifs at h
  · exact classify_post_nodup e users husers td h
  all_goals
    rw [Option.some_inj] at h
    rw [← h]
    exact extract_target_dids_nodup e users husers

theorem classify_event_nodup (e : BlueskyEvent) (users : List String)
    (husers : users.Nodup) (td : NotificationType × List String)
    (h : classify_event e users = some td) : td.2.Nodup := by
  unfold classify_event at h
  split at h
  · exact absurd h (by simp)
  · rename_i t dids heq
    split at h
    · exact absurd h (by simp)
    · rw [Option.some_inj] at h
      rw [← h]
      exact classify_arm_nodup e users husers (t, dids) heq

/-! ## Fan-out lemmas -/

/-- Whatever `device_payload` returns is fully determined: the payload
carries the recipient did, the device id and token, and the event kind,
and its preferences row exists with the flag set. -/
theorem device_payload_eq (prefs_of : Nat → Option NotificationPreference)
    (nt : NotificationType) (did : String) (dev : UserDevice)
    (p : NotificationPayload) (h : device_payload prefs_of nt did dev = some p) :
    p = ⟨did, dev.id, dev.device_token, nt⟩ ∧
    ∃ prefs, prefs_of dev.id = some prefs ∧ should_notify prefs nt = true := by
  unfold device_payload at h
  split at h
  · rename_i prefs hprefs
    split at h
    · rename_i hflag
      rw [Option.some_inj] at h
      exact ⟨h.symm, prefs, hprefs, hflag⟩
    · exact absurd h (by simp)
  · exact absurd h (by simp)

/-- Membership in the fan-out decomposed into its origin. -/
theorem mem_payloads_for_event (m b : String → String → Bool)
    (dm : String → List UserDevice) (po : Nat → Option NotificationPreference)
    (nt : NotificationType) (author : String) (dids : List String)
    (p : NotificationPayload)
    (h : p ∈ payloads_for_event m b dm po nt author dids) :
    ∃ did, did ∈ dids ∧ m did author = false ∧ b did author = false ∧
      ∃ dev, dev ∈ dm did ∧ device_payload po nt did dev = some p := by
  unfold payloads_for_event at h
  rw [List.mem_flatMap] at h
  obtain ⟨did, hdid, hp⟩ := h
  rw [List.mem_filter] at hdid
  obtain ⟨hmem, hcond⟩ := hdid
  rw [List.mem_filterMap] at hp
  obtain ⟨dev, hdev, hpd⟩ := hp
  refine ⟨did, hmem, ?_, ?_, dev, hdev, hpd⟩
  · have h2 := (Bool.and_eq_true _ _).mp hcond
    simpa using h2.1
  · have h2 := (Bool.and_eq_true _ _).mp hcond
    simpa using h2.2

/-- The device ids of payloads produced from one recipient's device list
form a sublist of that device list's ids. -/
theorem payload_ids_sublist (devs : List UserDevice)
    (po : Nat → Option NotificationPreference) (nt : NotificationType)
    (did : String) :
    List.Sublist ((devs.filterMap (device_payload po nt did)).map (fun p => p.device_id))
      (devs.map (fun d => d.id)) := by
  induction devs with
  | nil => simp
  | cons d t ih =>
    cases hgd : device_payload po nt did d with
    | none =>
      rw [List.filterMap_cons, hgd]
      rw [List.map_cons]
      exact ih.cons _
    | some p =>
      rw [List.filterMap_cons, hgd]
      rw [List.map_cons, List.map_cons]
      have hid : p.device_id = d.id := by
        rw [(device_payload_eq po nt did d p hgd).1]
      rw [hid]
      exact ih.cons₂ _

/-! ## Theorem for C1 (mute/block suppression) -/

/-- C1: if a classified recipient `R` has muted or blocked the event's
author, no payload for the event is enqueued for `R` (hence for none of
`R`'s devices). -/
theorem c1_mute_block_suppression (m b : String → String → Bool)
    (dm : String → List UserDevice) (po : Nat → Option NotificationPreference)
    (nt : NotificationType) (author : String) (dids : List String) (R : String)
    (h : m R author = true ∨ b R author = true) :
    ∀ p ∈ payloads_for_event m b dm po nt author dids, p.user_did ≠ R := by
  intro p hp hR
  obtain ⟨did, _, hm, hb, dev, _, hpd⟩ := mem_payloads_for_event m b dm po nt author dids p hp
  have hdid : p.user_did = did := by
    rw [(device_payload_eq po nt did dev p hpd).1]
  rw [hdid] at hR
  subst hR
  rcases h with h | h
  · rw [h] at hm; cases hm
  · rw [h] at hb; cases hb

/-- C1 witness: alice muted bob, so the quote payload for alice's device is
not produced. -/
theorem c1_mute_block_suppression_witness :
    (⟨"did:plc:alice", 1, "tokA", .quote⟩ : NotificationPayload) ∉
      payloads_for_event wMutedAliceBob wNoRel wDevicesOne wPrefsOn .quote
        "did:plc:bob" ["did:plc:alice"] :=
  fun hmem =>
    c1_mute_block_suppression wMutedAliceBob wNoRel wDevicesOne wPrefsOn .quote
      "did:plc:bob" ["did:plc:alice"] "did:plc:alice" (Or.inl (by decide))
      ⟨"did:plc:alice", 1, "tokA", .quote⟩ hmem rfl

/-! ## Theorem for C6 (preference suppression) -/

/-- C6: if the stored preference row of a device has the flag for the
classified kind set to `false`, no payload of that kind is enqueued for
that device. -/
theorem c6_pref_suppression (m b : String → String → Bool)
    (dm : String → List UserDevice) (po : Nat → Option NotificationPreference)
    (nt : NotificationType) (author : String) (dids : List String)
    (i : Nat) (prefs : NotificationPreference)
    (hpo : po i = some prefs) (hflag : should_notify prefs nt = false) :
    ∀ p ∈ payloads_for_event m b dm po nt author dids, p.device_id ≠ i := by
  intro p hp hi
  obtain ⟨did, _, _, _, dev, _, hpd⟩ := mem_payloads_for_event m b dm po nt author dids p hp
  obtain ⟨hpeq, prefs', hprefs', hflag'⟩ := device_payload_eq po nt did dev p hpd
  have hdev : dev.id = i := by
    rw [hpeq] at hi
    exact hi
  rw [hdev, hpo] at hprefs'
  rw [Option.some_inj] at hprefs'
  rw [← hprefs'] at hflag'
  rw [hflag'] at hflag
  cases hflag

/-- C6 witness: all flags false on alice's device, so the quote payload for
device 1 is not produced. -/
theorem c6_pref_suppression_witness :
    (⟨"did:plc:alice", 1, "tokA", .quote⟩ : NotificationPayload) ∉
      payloads_for_event wNoRel wNoRel wDevicesOne wPrefsOff .quote
        "did:plc:bob" ["did:plc:alice"] :=
  fun hmem =>
    c6_pref_suppression wNoRel wNoRel wDevicesOne wPrefsOff .quote
      "did:plc:bob" ["did:plc:alice"] 1 ⟨false, false, false, false, false, false⟩
      rfl rfl ⟨"did:plc:alice", 1, "tokA", .quote⟩ hmem rfl

/-! ## Theorem for C3 (at most one payload per device per event) -/

/-- C3: with distinct registered users, classification returns a duplicate
free recipient list, and — devices having unique ids within and across
recipients — the fan-out enqueues at most one payload per device. -/
theorem c3_at_most_once_per_device (e : BlueskyEvent) (users : List String)
    (m b : String → String → Bool) (dm : String → List UserDevice)
    (po : Nat → Option NotificationPreference)
    (t : NotificationType) (dids : List String)
    (husers : users.Nodup)
    (hclass : classify_event e users = some (t, dids))
    (hdevs : ∀ did, ((dm did).map (fun d => d.id)).Nodup)
    (hdisj : ∀ d1 d2, d1 ≠ d2 → ∀ x, x ∈ dm d1 → ∀ y, y ∈ dm d2 → x.id ≠ y.id) :
    dids.Nodup ∧
    ((payloads_for_event m b dm po t e.author dids).map (fun p => p.device_id)).Nodup := by
  have hnd : dids.Nodup := classify_event_nodup e users husers (t, dids) hclass
  refine ⟨hnd, ?_⟩
  unfold payloads_for_event
  rw [List.map_flatMap]
  rw [List.nodup_flatMap]
  constructor
  · intro did _
    exact (hdevs did).sublist (payload_ids_sublist (dm did) po t did)
  · have hfil : (dids.filter (fun did => !(m did e.author) && !(b did e.author))).Nodup :=
      hnd.filter _
    apply hfil.imp
    intro d1 d2 hne
    intro x hx1 hx2
    have hs1 := (payload_ids_sublist (dm d1) po t d1).subset hx1
    have hs2 := (payload_ids_sublist (dm d2) po t d2).subset hx2
    rw [List.mem_map] at hs1 hs2
    obtain ⟨da, hda, hxa⟩ := hs1
    obtain ⟨db, hdb, hxb⟩ := hs2
    exact hdisj d1 d2 hne da hda db hdb (by rw [hxa, hxb])

/-- C3 witness: the concrete quote event with two devices for alice gives
the duplicate-free recipient list and device-id list. -/
theorem c3_at_most_once_per_device_witness :
    (["did:plc:alice"] : List String).Nodup ∧
    ((payloads_for_event wNoRel wNoRel wDevicesTwo wPrefsOn .quote
        c2ev.author ["did:plc:alice"]).map (fun p => p.device_id)).Nodup := by
  apply c3_at_most_once_per_device c2ev wUsers wNoRel wNoRel wDevicesTwo wPrefsOn
    .quote ["did:plc:alice"] (by decide) (by decide)
  · intro did
    by_cases h : did = "did:plc:alice" <;> simp [wDevicesTwo, h]
  · intro d1 d2 hne x hx y hy
    by_cases h1 : d1 = "did:plc:alice" <;> by_cases h2 : d2 = "did:plc:alice" <;>
      simp_all [wDevicesTwo]

/-! ## Theorems for C4 (truncation) -/

set_option maxRecDepth 4000 in
/-- C4 counterexample: the code measures bytes, not characters, and the
claim's biconditional on the trailing `...` is also false. A text of 107
characters but 144 bytes is not returned verbatim (the claim says any text
of at most 140 characters is); 75 two-byte characters (150 bytes) make the
byte slice `[..137]` split a character and panic; and the three-byte text
`...` is returned verbatim (length under every measure ≤ 140) yet ends
with `...`, refuting the claimed iff. -/
theorem c4_trunc_counterexample :
    utf8_char_count sampleMultiByte = 107 ∧
    sampleMultiByte.length = 144 ∧
    truncate_text sampleMultiByte ≠ some sampleMultiByte ∧
    truncate_text panicSample = none ∧
    (∃ u, truncate_text ellipsisBytes = some (u ++ ellipsisBytes)) ∧
    ¬ ellipsisBytes.length > 140 := by
  refine ⟨by decide, by decide, by decide, by decide, ⟨[], rfl⟩, by decide⟩

/-- C4 (amended): truncation measures UTF-8 bytes, not characters. Text of
at most 140 bytes is returned verbatim; text longer than 140 bytes yields
its first 137 bytes followed by `...` when byte 137 is a character
boundary (so the result ends with `...`), and panics when it is not; any
returned text has at most 140 bytes; a short text already ending in `...`
is returned verbatim, so the trailing `...` does not imply truncation. -/
theorem c4_truncation_amended (t : List Nat) :
    (t.length ≤ 140 → truncate_text t = some t) ∧
    (t.length > 140 → is_char_boundary t 137 = true →
      truncate_text t = some (t.take 137 ++ ellipsisBytes) ∧
      ∃ u, truncate_text t = some (u ++ ellipsisBytes)) ∧
    (t.length > 140 → is_char_boundary t 137 = false → truncate_text t = none) ∧
    (∀ r, truncate_text t = some r → r.length ≤ 140) := by
  refine ⟨?_, ?_, ?_, ?_⟩
  · intro h
    unfold truncate_text
    rw [if_neg (by omega)]
  · intro h hb
    unfold truncate_text
    rw [if_pos h, if_pos hb]
    exact ⟨rfl, ⟨t.take 137, rfl⟩⟩
  · intro h hb
    unfold truncate_text
    rw [if_pos h, if_neg (by simp [hb])]
  · intro r hr
    by_cases h : t.length > 140
    · by_cases hb : is_char_boundary t 137 = true
      · unfold truncate_text at hr
        rw [if_pos h, if_pos hb] at hr
        rw [Option.some_inj] at hr
        rw [← hr, List.length_append, List.length_take]
        have h3 : ellipsisBytes.length = 3 := rfl
        omega
      · unfold truncate_text at hr
        rw [if_pos h, if_neg hb] at hr
        cases hr
    · unfold truncate_text at hr
      rw [if_neg h] at hr
      rw [Option.some_inj] at hr
      rw [← hr]
      omega

set_option maxRecDepth 4000 in
/-- C4 witness: the amended theorem applied at concrete ASCII texts of 141
and 140 bytes (byte 137 of an ASCII text is always a boundary). -/
theorem c4_truncation_amended_witness :
    truncate_text (List.replicate 141 97) =
      some ((List.replicate 141 97).take 137 ++ ellipsisBytes) ∧
    truncate_text (List.replicate 140 97) = some (List.replicate 140 97) := by
  constructor
  · exact ((c4_truncation_amended (List.replicate 141 97)).2.1
      (by rw [List.length_replicate]; omega) (by decide)).1
  · exact (c4_truncation_amended (List.replicate 140 97)).1
      (by rw [List.length_replicate])

/-! ## Theorem for C10 (fail-open relationship check) -/

/-- C10: with no cache entry, if the storage query that the configured mode
uses fails, `is_muted` and `is_blocked` both return `false` — the check
fails open and never suppresses a notification on a storage failure. -/
theorem c10_fail_open (useHashed : Bool) (hc : Except Unit Nat)
    (pl : Except Unit (List String)) (target : String)
    (h1 : useHashed = true → hc = .error ())
    (h2 : useHashed = false → pl = .error ()) :
    is_muted none useHashed hc pl target = false ∧
    is_blocked none useHashed hc pl target = false := by
  cases useHashed
  · rw [h2 rfl]
    exact ⟨rfl, rfl⟩
  · rw [h1 rfl]
    exact ⟨rfl, rfl⟩

/-- C10 witness: hashed-storage mode with a failing hash-table query. -/
theorem c10_fail_open_witness :
    is_muted none true (.error ()) (.ok ["did:plc:carol"]) "did:plc:carol" = false ∧
    is_blocked none true (.error ()) (.ok ["did:plc:carol"]) "did:plc:carol" = false :=
  c10_fail_open true (.error ()) (.ok ["did:plc:carol"]) "did:plc:carol"
    (fun _ => rfl) (fun h => by cases h)

/-! ## Theorems for C5 (post-resolver circuit breaker) -/

/-- A lookup that the source records purely as a breaker failure — a
transport error or a non-2xx status — applies `handle_failure` once. -/
theorem fetch_pure_failure_cb (cb : CircuitBreaker) (now : Nat) (n : NetOutcome)
    (hn : n = NetOutcome.sendError ∨ n = NetOutcome.httpError)
    (hcb : cb_is_open cb now = false) :
    (fetch_post_from_network_individual cb now n).cb = handle_failure cb now := by
  rcases hn with rfl | rfl <;> simp [fetch_post_from_network_individual, hcb]

/-- C5 counterexample: five consecutive failing lookups do not in general
trip the breaker. The source records `handle_success` on any 2xx status
before parsing, so five 2xx-but-unparsable responses (each a lookup
failure: the call returns `Err`) leave the breaker at one counted failure,
five 2xx-empty-`posts` responses (also `Err`) leave it at zero, and the
6th call still performs network I/O rather than short-circuiting. -/
theorem c5_trip_at_5_counterexample :
    (run_lookups post_resolver_breaker 0 (List.replicate 5 .parseError)).st =
      CBState.closed 1 ∧
    (run_lookups post_resolver_breaker 0 (List.replicate 5 .emptyPosts)).st =
      CBState.closed 0 ∧
    cb_is_open (run_lookups post_resolver_breaker 0 (List.replicate 5 .parseError)) 0 = false ∧
    (fetch_post_from_network_individual
      (run_lookups post_resolver_breaker 0 (List.replicate 5 .parseError)) 0
      .sendError).network_used = true := by
  refine ⟨by decide, by decide, by decide, by decide⟩

/-- C5 (amended): five consecutive lookup failures each recorded purely as
a breaker failure (transport errors or non-2xx responses) at time `t` trip
the breaker as configured by `PostResolver::new`; at any time `u` inside
the 30-second window a further call (in particular the 6th) returns the
fallback string `Content temporarily unavailable` with no network I/O and
no breaker change; at any time `v` past the window the breaker no longer
reports open, and two successful lookups then re-close it. (Failing
lookups whose response was 2xx — parse errors or an empty posts list —
record a success first and do not advance the breaker toward open.) -/
theorem c5_circuit_breaker_amended (t u v : Nat) (fails : List NetOutcome)
    (net : NetOutcome) (s1 s2 : List Nat)
    (hlen : fails.length = 5)
    (hf : ∀ n ∈ fails, n = NetOutcome.sendError ∨ n = NetOutcome.httpError)
    (hu : u < t + 30) (hv : t + 30 ≤ v) :
    (run_lookups post_resolver_breaker t fails).st = CBState.tripped t ∧
    cb_is_open (run_lookups post_resolver_breaker t fails) u = true ∧
    fetch_post_from_network_individual (run_lookups post_resolver_breaker t fails) u net =
      { result := .ok fallbackBytes, cb := run_lookups post_resolver_breaker t fails,
        network_used := false } ∧
    cb_is_open (run_lookups post_resolver_breaker t fails) v = false ∧
    ((fetch_post_from_network_individual
        (fetch_post_from_network_individual
          (run_lookups post_resolver_breaker t fails) v (.posts s1)).cb
        v (.posts s2)).cb).st = CBState.closed 0 := by
  rcases fails with _ | ⟨a, _ | ⟨b, _ | ⟨c, _ | ⟨d, _ | ⟨e, rest⟩⟩⟩⟩⟩ <;> simp at hlen
  subst hlen
  have ha := hf a (by simp)
  have hb := hf b (by simp)
  have hc := hf c (by simp)
  have hd := hf d (by simp)
  have he := hf e (by simp)
  have hrun : run_lookups post_resolver_breaker t [a, b, c, d, e] =
      { failure_threshold := 5, success_threshold := 2, open_duration := 30,
        st := CBState.tripped t } := by
    simp only [run_lookups]
    rw [fetch_pure_failure_cb post_resolver_breaker t a ha rfl]
    rw [show handle_failure post_resolver_breaker t = ⟨5, 2, 30, CBState.closed 1⟩ from rfl]
    rw [fetch_pure_failure_cb ⟨5, 2, 30, CBState.closed 1⟩ t b hb rfl]
    rw [show handle_failure ⟨5, 2, 30, CBState.closed 1⟩ t = ⟨5, 2, 30, CBState.closed 2⟩ from rfl]
    rw [fetch_pure_failure_cb ⟨5, 2, 30, CBState.closed 2⟩ t c hc rfl]
    rw [show handle_failure ⟨5, 2, 30, CBState.closed 2⟩ t = ⟨5, 2, 30, CBState.closed 3⟩ from rfl]
    rw [fetch_pure_failure_cb ⟨5, 2, 30, CBState.closed 3⟩ t d hd rfl]
    rw [show handle_failure ⟨5, 2, 30, CBState.closed 3⟩ t = ⟨5, 2, 30, CBState.closed 4⟩ from rfl]
    rw [fetch_pure_failure_cb ⟨5, 2, 30, CBState.closed 4⟩ t e he rfl]
    rfl
  rw [hrun]
  have hopen : cb_is_open (⟨5, 2, 30, CBState.tripped t⟩ : CircuitBreaker) u = true := by
    simp [cb_is_open, hu]
  have hshut : cb_is_open (⟨5, 2, 30, CBState.tripped t⟩ : CircuitBreaker) v = false := by
    simp [cb_is_open]
    omega
  refine ⟨rfl, hopen, ?_, hshut, ?_⟩
  · unfold fetch_post_from_network_individual
    rw [if_pos hopen]
  · have h1 : (fetch_post_from_network_individual ⟨5, 2, 30, CBState.tripped t⟩ v
        (.posts s1)).cb = ⟨5, 2, 30, CBState.halfOpen 1⟩ := by
      unfold fetch_post_from_network_individual
      rw [if_neg (by simp [hshut])]
      simp [handle_success, cb_observe, hv]
    rw [h1]
    have h2 : cb_is_open (⟨5, 2, 30, CBState.halfOpen 1⟩ : CircuitBreaker) v = false := rfl
    unfold fetch_post_from_network_individual
    rw [if_neg (by simp [h2])]
    simp [handle_success, cb_observe]

/-- C5 witness: five transport failures at time 0, a probe call at time 10,
recovery with two successful lookups from time 30. -/
theorem c5_circuit_breaker_amended_witness :
    (run_lookups post_resolver_breaker 0 (List.replicate 5 .sendError)).st =
      CBState.tripped 0 ∧
    cb_is_open (run_lookups post_resolver_breaker 0 (List.replicate 5 .sendError)) 10 = true ∧
    fetch_post_from_network_individual
        (run_lookups post_resolver_breaker 0 (List.replicate 5 .sendError)) 10 .httpError =
      { result := .ok fallbackBytes,
        cb := run_lookups post_resolver_breaker 0 (List.replicate 5 .sendError),
        network_used := false } ∧
    cb_is_open (run_lookups post_resolver_breaker 0 (List.replicate 5 .sendError)) 30 = false ∧
    ((fetch_post_from_network_individual
        (fetch_post_from_network_individual
          (run_lookups post_resolver_breaker 0 (List.replicate 5 .sendError)) 30
          (.posts [104, 105])).cb
        30 (.posts [104, 105])).cb).st = CBState.closed 0 :=
  c5_circuit_breaker_amended 0 10 30 (List.replicate 5 .sendError) .httpError
    [104, 105] [104, 105] (by decide) (by decide) (by decide) (by decide)

/-! ## Theorems for C7 (firehose reconnect loop) -/

/-- C7 counterexample: a stream error in the streaming phase neither
increments the reconnect attempt counter nor sleeps — it returns straight
to connecting (the source's inner-loop `break` skips the backoff block,
which only runs on connect failures). -/
theorem c7_stream_error_counterexample :
    (fire_step ⟨3, 8, .streaming⟩ .streamError).1.attempts = 3 ∧
    ¬ (fire_step ⟨3, 8, .streaming⟩ .streamError).1.attempts = 3 + 1 ∧
    (fire_step ⟨3, 8, .streaming⟩ .streamError).2 = .idle ∧
    (fire_step ⟨3, 8, .streaming⟩ .streamError).1.phase = .connecting ∧
    ¬ (∀ s : FireState, (fire_step s .streamError).1.attempts = s.attempts + 1) := by
  refine ⟨by decide, by decide, by decide, by decide, fun h => ?_⟩
  exact absurd (h ⟨3, 8, .streaming⟩) (by decide)

/-- C7 (amended): every connect failure increments the attempt counter and
either fails fatally (counter at 10) or sleeps the current backoff and
doubles it capped at 60 s; a stream error returns to connecting at once,
leaving counter and backoff untouched and sleeping not at all; a processed
commit resets counter and backoff; ten consecutive connect failures from
the initial state sleep 1,2,4,8,16,32,60,60,60 and then fail fatally. -/
theorem c7_reconnect_amended (a d : Nat) :
    (fire_step ⟨a, d, .connecting⟩ .connectFail =
      if a + 1 ≥ 10 then (⟨a + 1, d, .connecting⟩, .fatalStop)
      else (⟨a + 1, min (d * 2) 60, .connecting⟩, .sleepFor d)) ∧
    fire_step ⟨a, d, .streaming⟩ .streamError = (⟨a, d, .connecting⟩, .idle) ∧
    fire_step ⟨a, d, .streaming⟩ .commitProcessed = (⟨0, 1, .streaming⟩, .idle) ∧
    (fire_run fire_initial (List.replicate 10 .connectFail)).2 =
      [.sleepFor 1, .sleepFor 2, .sleepFor 4, .sleepFor 8, .sleepFor 16,
       .sleepFor 32, .sleepFor 60, .sleepFor 60, .sleepFor 60, .fatalStop] := by
  refine ⟨rfl, rfl, rfl, by decide⟩

/-! ## Theorems for C8 (410 deletes exactly the stale device row) -/

/-- C8: when exactly one registration row carries the payload's token, the
410 handler's delete removes exactly that row: the row count drops by one,
every other row survives unchanged, and every surviving row existed
before and does not carry the token. -/
theorem c8_delete_410 (rows : List DeviceRow) (tok : String)
    (huniq : (rows.filter (fun r => r.device_token == tok)).length = 1) :
    (delete_device_by_token rows tok).length + 1 = rows.length ∧
    (∀ r ∈ rows, r.device_token ≠ tok → r ∈ delete_device_by_token rows tok) ∧
    (∀ r ∈ delete_device_by_token rows tok, r ∈ rows ∧ r.device_token ≠ tok) := by
  refine ⟨?_, ?_, ?_⟩
  · have hperm := (List.filter_append_perm (fun r => r.device_token == tok) rows).length_eq
    rw [List.length_append] at hperm
    unfold delete_device_by_token
    omega
  · intro r hr hne
    unfold delete_device_by_token
    rw [List.mem_filter]
    exact ⟨hr, by simp [hne]⟩
  · intro r hr
    unfold delete_device_by_token at hr
    rw [List.mem_filter] at hr
    refine ⟨hr.1, ?_⟩
    simpa using hr.2

/-- C8 witness: deleting token `tokA` from a two-row table keeps exactly
bob's row. -/
theorem c8_delete_410_witness :
    (delete_device_by_token wRows "tokA").length + 1 = wRows.length ∧
    (⟨2, "did:plc:bob", "tokB"⟩ : DeviceRow) ∈ delete_device_by_token wRows "tokA" :=
  ⟨(c8_delete_410 wRows "tokA" (by decide)).1,
   (c8_delete_410 wRows "tokA" (by decide)).2.1 ⟨2, "did:plc:bob", "tokB"⟩
     (by decide) (by decide)⟩

/-! ## Theorems for C9 (relationship payload size limit) -/

/-- C9: a request whose mutes or blocks exceed 1000 entries is answered
with 400 and the store untouched, whatever the device table holds (the
check runs before authentication); a request within the limit (including
exactly 1000) that authenticates is processed: status 200 and the user's
rows replaced by the submitted sets. -/
theorem c9_relationship_size_limit (devices : List DeviceRow) (st : RelStore)
    (req : RelRequest) :
    (req.mutes.length > 1000 ∨ req.blocks.length > 1000 →
      update_relationships devices st req = (400, st)) ∧
    (req.mutes.length ≤ 1000 → req.blocks.length ≤ 1000 →
      authenticate_device devices req.did req.device_token = true →
      update_relationships devices st req =
        (200,
          { muteRows := st.muteRows.filter (fun p => !(p.1 == req.did)) ++
              req.mutes.map (fun m => (req.did, m)),
            blockRows := st.blockRows.filter (fun p => !(p.1 == req.did)) ++
              req.blocks.map (fun b => (req.did, b)) })) := by
  constructor
  · intro h
    unfold update_relationships
    rw [if_pos h]
  · intro h1 h2 hauth
    unfold update_relationships
    rw [if_neg (by omega : ¬(req.mutes.length > 1000 ∨ req.blocks.length > 1000))]
    unfold update_relationships_batch
    rw [if_pos hauth]

/-- C9 witness: 1001 mutes are rejected with 400 leaving the store as it
was; 1000 mutes plus 1000 blocks authenticate and succeed with 200. -/
theorem c9_relationship_size_limit_witness :
    update_relationships wApiDevices wStore wReqOversize = (400, wStore) ∧
    (update_relationships wApiDevices wStore wReqFull).1 = 200 :=
  ⟨(c9_relationship_size_limit wApiDevices wStore wReqOversize).1
      (Or.inl (by
        rw [show wReqOversize.mutes = List.replicate 1001 "did:plc:x" from rfl,
          List.length_replicate]
        omega)),
   by rw [(c9_relationship_size_limit wApiDevices wStore wReqFull).2
      (by
        rw [show wReqFull.mutes = List.replicate 1000 "did:plc:x" from rfl,
          List.length_replicate])
      (by
        rw [show wReqFull.blocks = List.replicate 1000 "did:plc:y" from rfl,
          List.length_replicate])
      (by decide)]⟩

end BskyPush
